import Mathlib

/-!
Shallow embedding of the `datatools` repository (readData.py, binario.py,
remote_sensing.py) and proofs about its documented behaviour.

Conventions of the embedding:
* floating-point columns are modelled as exact rationals where the code only
  moves, compares and rescales values, and as real numbers where the code does
  trigonometry (the WindCube direction formula);
* a Python exception is an explicit `PyErr` value and a fallible computation
  returns `Except PyErr _`;
* a token that `int()` / `float()` may fail to parse is an `Option` value,
  `none` standing for an unparseable token;
* pandas dataframes are modelled column-wise as lists (one entry per row).
-/

/-- Python exceptions that the readers of this repository can raise. -/
inductive PyErr where
  /-- ValueError raised by int()/float() on a malformed token, or by a
  mismatched numpy slice assignment. -/
  | valueError : PyErr
  /-- IndexError raised by indexing a token list past its end. -/
  | indexError : PyErr
  /-- NameError raised when a global name is not defined in the module. -/
  | nameError : String → PyErr
  /-- UnboundLocalError raised when a local is referenced before assignment. -/
  | unboundLocalError : String → PyErr
  /-- struct.error raised by struct.unpack on a buffer of the wrong size. -/
  | structError : PyErr
  /-- ValueError raised by np.genfromtxt when max_rows is smaller than 1. -/
  | maxRowsError : PyErr
deriving DecidableEq

deriving instance DecidableEq for Except

/-! ## remote_sensing.py, windcube_v1: wind-direction derivation

Lines 86-88 of remote_sensing.py compute, per row of the merged table,

  speed     = sqrt(um**2 + vm**2)
  direction = 270.0 - 180.0/np.pi*np.arctan2(vm, um)
  direction -= 360.0   on exactly the rows where direction > 360.0
-/

/-- Two-argument arctangent np.arctan2(y, x): the argument of the complex
number x + y*i, valued in (-pi, pi]. -/
noncomputable def arctan2 (y x : ℝ) : ℝ := Complex.arg ⟨x, y⟩

/-- remote_sensing.py line 87: the raw direction 270 - (180/pi)*arctan2(vm,um). -/
noncomputable def windcube_v1_rawDirection (um vm : ℝ) : ℝ :=
  270.0 - 180.0 / Real.pi * arctan2 vm um

/-- remote_sensing.py line 88: subtract 360 from a direction entry exactly when
it is strictly greater than 360 (the boolean mask `direction > 360.0`). -/
noncomputable def windcube_v1_wrap (d : ℝ) : ℝ :=
  if d > 360.0 then d - 360.0 else d

/-- The direction column value computed by windcube_v1 for one row with
horizontal components (um, vm). -/
noncomputable def windcube_v1_direction (um vm : ℝ) : ℝ :=
  windcube_v1_wrap (windcube_v1_rawDirection um vm)

/-! ## remote_sensing.py: sentinel bad-value flagging

ESRL_wind_profiler (lines 141-149) rescales the height column and replaces
sentinel entries of the SPD and DIR columns by NaN; scintec_profiler
(lines 225-226) replaces sentinel entries of the wind speed and wind
direction columns by NaN.  A flagged entry is modelled as `none`.
-/

/-- The pandas masked assignment df.loc[df[col]==bad, col] = np.nan applied to
one column: every entry equal to the sentinel becomes missing (`none`), every
other entry is kept. -/
def maskColumn (bad : ℚ) (col : List ℚ) : List (Option ℚ) :=
  col.map (fun x => if x = bad then none else some x)

/-- The two-block consensus table parsed by ESRL_wind_profiler, column-wise:
the HT, SPD and DIR columns and the remaining columns of the block. -/
structure EsrlTable where
  ht : List ℚ
  spd : List ℚ
  dir : List ℚ
  others : List (List ℚ)
deriving DecidableEq

/-- The table ESRL_wind_profiler returns: HT rescaled, SPD and DIR with
sentinel entries flagged as missing. -/
structure EsrlTableOut where
  ht : List ℚ
  spd : List (Option ℚ)
  dir : List (Option ℚ)
  others : List (List ℚ)
deriving DecidableEq

/-- remote_sensing.py lines 141-149 (single sentinel, the default path):
df['HT'] = df['HT']*height_conversion_to_m, then the SPD and DIR sentinel
masks.  All other columns are returned as parsed. -/
def ESRL_wind_profiler (heightConv badValue : ℚ) (t : EsrlTable) : EsrlTableOut :=
  ⟨t.ht.map (fun h => h * heightConv),
   maskColumn badValue t.spd,
   maskColumn badValue t.dir,
   t.others⟩

/-- The main data block parsed by scintec_profiler, column-wise. -/
structure ScintecTable where
  speed : List ℚ
  direction : List ℚ
  others : List (List ℚ)
deriving DecidableEq

/-- The table scintec_profiler returns. -/
structure ScintecTableOut where
  speed : List (Option ℚ)
  direction : List (Option ℚ)
  others : List (List ℚ)
deriving DecidableEq

/-- remote_sensing.py lines 225-226: sentinel masks on the wind speed and
wind direction columns; every other column is returned as parsed. -/
def scintec_profiler (badSpeed badDirection : ℚ) (t : ScintecTable) : ScintecTableOut :=
  ⟨maskColumn badSpeed t.speed, maskColumn badDirection t.direction, t.others⟩

/-! ## remote_sensing.py, ARL_wind_profiler: module-level name resolution

Line 174 of remote_sensing.py is `Nh = len(range_gates)` and line 184 is
`df = pd.DataFrame(data=block, columns=header, dtype=float)`.  Neither
`range_gates` nor `header` is a parameter, a local of the function, or a
global of the module, so the first of them hit raises NameError.  The
module's global namespace is modelled by listing the names remote_sensing.py
binds at top level.
-/

/-- The names bound at top level of remote_sensing.py: the three imports and
the five module-level definitions. -/
def remote_sensing_module_names : List String :=
  ["np", "pd", "codecs",
   "windcube_v1", "read_winds_data_block", "ESRL_wind_profiler",
   "PCSodar_header", "ARL_wind_profiler", "scintec_profiler"]

/-- Python name resolution for a name that is not a local of the function:
the name must be bound in the module's global namespace, otherwise NameError. -/
def resolveGlobal (env : List String) (n : String) : Except PyErr Unit :=
  if n ∈ env then Except.ok () else Except.error (PyErr.nameError n)

/-- remote_sensing.py lines 164-191, ARL_wind_profiler.  Its locals before
line 174 are the parameters and `dataframes`; line 174 reads the free name
`range_gates`, so the function resolves it as a global before anything else
(in particular before the file is opened on line 175).  The code after that
point is unreachable, and is modelled by the per-block parse it would perform:
resolving the free name `header` (line 184) for each block. -/
def ARL_wind_profiler (blocks : List (List (List ℚ))) :
    Except PyErr (List (List (List ℚ))) := do
  -- line 174: Nh = len(range_gates)
  let _ ← resolveGlobal remote_sensing_module_names "range_gates"
  -- lines 175-190, never reached: each block builds a dataframe whose
  -- columns are the free name `header` (line 184)
  let _ ← resolveGlobal remote_sensing_module_names "header"
  Except.ok blocks

/-! ## readData.py, planarAverages (lines 212-255)

The reader walks the ordered timestep subdirectories; for subdirectory i it
loads the rows (time, dt, values...) of the variable file, computes

  index = np.argmax(np.abs(tInt >= tNext))   for i < nTimes-1, tNext the
                                             next subdirectory's name as a
                                             number
  index = len(tInt)                          for the last subdirectory

and concatenates rows[0:index] over the subdirectories.  np.argmax over the
boolean mask returns the first index at which the mask is true, and 0 when
the mask is nowhere true.
-/

/-- One row (time, dt, values...) of a planar-average variable file. -/
structure PARow where
  t : ℚ
  dt : ℚ
  vals : List ℚ
deriving DecidableEq

/-- One timestep subdirectory: its name parsed as a number (the nominal
start time) and the rows of the variable file inside it. -/
structure PASubdir where
  startTime : ℚ
  rows : List PARow
deriving DecidableEq

/-- readData.py line 241: np.argmax(np.abs(tInt >= tNext)) — the first row
index whose time reaches tNext, and 0 when no row does. -/
def truncationIndex (rows : List PARow) (tNext : ℚ) : ℕ :=
  if rows.any (fun r => tNext ≤ r.t) then rows.findIdx (fun r => tNext ≤ r.t) else 0

/-- readData.py lines 233-252: the concatenated rows.  A subdirectory other
than the last contributes rows[0:truncationIndex rows next.startTime]; the
last contributes all its rows (index = len(tInt), line 243). -/
def planarAverages : List PASubdir → List PARow
  | [] => []
  | [sd] => sd.rows
  | sd :: next :: rest =>
      sd.rows.take (truncationIndex sd.rows next.startTime)
        ++ planarAverages (next :: rest)

/-- The concatenated time column returned by planarAverages (its second
return value). -/
def planarAveragesTimes (sds : List PASubdir) : List ℚ :=
  (planarAverages sds).map PARow.t

/-! ## readData.py, structuredVTK (lines 23-126)

The axes construction (lines 73-87): an axis with more than one point is
np.linspace(origin, origin + spacing*(count-1), count), an axis with one
point (or fewer) is the single value origin.
-/

/-- np.linspace(a, b, n): n samples, the i-th being a + (b-a)*i/(n-1).
Only used by the code with n > 1. -/
def linspace (a b : ℚ) (n : ℕ) : List ℚ :=
  (List.range n).map (fun (i : ℕ) => a + (b - a) * (i : ℚ) / ((n : ℚ) - 1))

/-- readData.py lines 73-87, one coordinate axis: linspace over
spacing*(count-1) when count > 1, else the single value origin. -/
def structuredVTKaxis (origin spacing : ℚ) (count : ℕ) : List ℚ :=
  if 1 < count then linspace origin (origin + spacing * ((count : ℚ) - 1)) count
  else [origin]

/-- The three axes structuredVTK builds from the parsed dimensions, origin
and spacing triples. -/
def structuredVTKgrid (dims : ℕ × ℕ × ℕ) (origin spacing : ℚ × ℚ × ℚ) :
    List ℚ × List ℚ × List ℚ :=
  (structuredVTKaxis origin.1 spacing.1 dims.1,
   structuredVTKaxis origin.2.1 spacing.2.1 dims.2.1,
   structuredVTKaxis origin.2.2 spacing.2.2 dims.2.2)

/-! ## Tokenized text lines

The text readers of readData.py slice a fixed prefix off a header line and
feed the remaining whitespace-separated tokens to int() / float().  A token
is modelled as either a number both accept, or a raw string on which they
raise ValueError; a line is its token list (the fixed tag prefix of a header
line is its first token). -/

/-- One whitespace-separated token of a text line. -/
inductive Tok where
  /-- A token that parses as a number. -/
  | num : ℚ → Tok
  /-- A token that is not a number; float() and int() raise ValueError on it. -/
  | raw : String → Tok
deriving DecidableEq

/-- Python float(token): the numeric value, or ValueError. -/
def pyFloat : Tok → Except PyErr ℚ
  | Tok.num q => Except.ok q
  | Tok.raw _ => Except.error PyErr.valueError

/-- Python int(token): the value when the token is an integer literal,
ValueError otherwise (int() also rejects a fractional literal). -/
def pyInt : Tok → Except PyErr ℤ
  | Tok.num q => if q.den = 1 then Except.ok q.num else Except.error PyErr.valueError
  | Tok.raw _ => Except.error PyErr.valueError

/-- Indexing a token list, c[k]: the token, or IndexError past the end. -/
def tokAt (l : List Tok) (k : ℕ) : Except PyErr Tok :=
  match l[k]? with
  | some t => Except.ok t
  | none => Except.error PyErr.indexError

/-- f.readline() over the remaining lines of an open text file: the next
line's tokens ([] once the file is exhausted, as an empty string splits to
no tokens) and the rest of the file. -/
def readline : List (List Tok) → List Tok × List (List Tok)
  | [] => ([], [])
  | l :: ls => (l, ls)

/-! ## readData.py, structuredVTK: the full parse and the file handle

structuredVTK opens its file with a plain open() (line 29) and calls
f.close() only at line 122, after the whole parse; there is no
try/finally and no with-statement, so a ValueError or IndexError raised
while decoding leaves the function without reaching the close. -/

/-- Everything structuredVTK returns (line 126).  The field values are kept
as the rows in the order the file supplies them (the loop of lines 110-116
re-indexes the same values into a rank-by-x-by-y-by-z array). -/
structure VTKData where
  dataSetName : List Tok
  dims : ℕ × ℕ × ℕ
  origin : ℚ × ℚ × ℚ
  spacing : ℚ × ℚ × ℚ
  x : List ℚ
  y : List ℚ
  z : List ℚ
  nFields : ℕ
  fields : List (Tok × ℕ × List (List ℚ))
deriving DecidableEq

/-- readData.py lines 115-116: for n in range(fieldDim), float(l[n]) — the
first fieldDim tokens of one data row as numbers.  The first argument counts
the reads still to do, the second is the next token index. -/
def readRowVals : ℕ → ℕ → List Tok → Except PyErr (List ℚ)
  | 0, _, _ => Except.ok []
  | n + 1, k, l => do
      let v ← pyFloat (← tokAt l k)
      let rest ← readRowVals n (k + 1) l
      Except.ok (v :: rest)

/-- readData.py lines 110-116: the triple loop over i, k, j reads
dims0*dims1*dims2 consecutive rows, each of fieldDim values. -/
def readFieldRows (fieldDim : ℕ) : ℕ → List (List Tok) →
    Except PyErr (List (List ℚ) × List (List Tok))
  | 0, s => Except.ok ([], s)
  | n + 1, s => do
      let (l, s₁) := readline s
      let row ← readRowVals fieldDim 0 l
      let (rows, s₂) ← readFieldRows fieldDim n s₁
      Except.ok (row :: rows, s₂)

/-- readData.py lines 101-118: the per-field loop.  Before every field but
the first a separator line is consumed (lines 102-103); then the header line
gives the field name (c[0]) and rank (int(c[1])), and nPoints rows of values
follow. -/
def readFields (nPoints : ℕ) : ℕ → Bool → List (List Tok) →
    Except PyErr (List (Tok × ℕ × List (List ℚ)) × List (List Tok))
  | 0, _, s => Except.ok ([], s)
  | m + 1, first, s => do
      let s₀ := if first then s else (readline s).2
      let (hl, s₁) := readline s₀
      let name ← tokAt hl 0
      let fdim ← pyInt (← tokAt hl 1)
      let (rows, s₂) ← readFieldRows fdim.toNat nPoints s₁
      let (rest, s₃) ← readFields nPoints m false s₂
      Except.ok ((name, fdim.toNat, rows) :: rest, s₃)

/-- readData.py lines 23-126 without the handle bookkeeping: the sequential
parse.  Header lines are consumed at fixed offsets (lines 33-94); the tag
prefix a slice like d[11:] removes is the line's first token. -/
def structuredVTKparse (file : List (List Tok)) : Except PyErr VTKData := do
  let (_, s) := readline file                      -- line 33
  let (nameLine, s) := readline s                  -- line 34: dataSetName
  let (_, s) := readline s                         -- line 38
  let (_, s) := readline s                         -- line 39
  let (dl, s) := readline s                        -- line 40: DIMENSIONS line
  let d0 ← pyInt (← tokAt (dl.drop 1) 0)
  let d1 ← pyInt (← tokAt (dl.drop 1) 1)
  let d2 ← pyInt (← tokAt (dl.drop 1) 2)
  let dims : ℕ × ℕ × ℕ := (d0.toNat, d1.toNat, d2.toNat)
  let (ol, s) := readline s                        -- line 51: ORIGIN line
  let o0 ← pyFloat (← tokAt (ol.drop 1) 0)
  let o1 ← pyFloat (← tokAt (ol.drop 1) 1)
  let o2 ← pyFloat (← tokAt (ol.drop 1) 2)
  let (sl, s) := readline s                        -- line 62: SPACING line
  let s0 ← pyFloat (← tokAt (sl.drop 1) 0)
  let s1 ← pyFloat (← tokAt (sl.drop 1) 1)
  let s2 ← pyFloat (← tokAt (sl.drop 1) 2)
  let axes := structuredVTKgrid dims (o0, o1, o2) (s0, s1, s2)
  let (_, s) := readline s                         -- line 91
  let (nfl, s) := readline s                       -- line 92: field count line
  let nF ← pyInt (← tokAt (nfl.drop 1) 0)
  let (flds, _) ← readFields (dims.1 * dims.2.1 * dims.2.2) nF.toNat true s
  Except.ok ⟨nameLine, dims, (o0, o1, o2), (s0, s1, s2),
             axes.1, axes.2.1, axes.2.2, nF.toNat, flds⟩

/-- readData.py structuredVTK with its file handle: open() at line 29,
f.close() at line 122 only on the fall-through path.  The boolean records
whether the handle was closed when the function was left. -/
def structuredVTK (file : List (List Tok)) : Except PyErr VTKData × Bool :=
  match structuredVTKparse file with
  | Except.ok r => (Except.ok r, true)
  | Except.error e => (Except.error e, false)

/-! ## readData.py, ensight (lines 142-202) -/

/-- readData.py lines 182-187: the field rank decoded from the literal
content of the one-line type tag; fieldDim keeps its initial value 0 for any
other tag (line 179). -/
def ensightFieldDim (dataType : String) : ℕ :=
  if dataType = "scalar" then 1
  else if dataType = "vector" then 3
  else if dataType = "tensor" then 9
  else 0

/-- readData.py lines 193-197: np.genfromtxt(... max_rows=dims*fieldDim),
which raises ValueError when max_rows is smaller than 1, then the column
assignments field[0:dims, i] = data[i*dims:(i+1)*dims], each of which
requires a full run of dims values.  The result is the list of the
fieldDim columns, column i the i-th contiguous run of dims values. -/
def ensightReadField (dims : ℕ) (dataType : String) (raw : List ℚ) :
    Except PyErr (List (List ℚ)) :=
  let fd := ensightFieldDim dataType
  if dims * fd < 1 then Except.error PyErr.maxRowsError
  else
    let data := raw.take (dims * fd)
    if (List.range fd).all (fun i => ((data.drop (i * dims)).take dims).length = dims)
    then Except.ok ((List.range fd).map (fun i => (data.drop (i * dims)).take dims))
    else Except.error PyErr.valueError

/-- The Ensight geometry file as ensight reads it: the token of line 9 that
int() turns into the point count, and the numeric rows that follow
(np.genfromtxt(... skip_header=9, max_rows=dims*3), line 161). -/
structure EnsightMesh where
  countTok : Tok
  coords : List ℚ
deriving DecidableEq

/-- readData.py lines 142-202.  With readFieldOnly false the geometry block
(lines 148-167) binds dims from the mesh file and x, y, z from the three
contiguous runs of the coordinate data; with readFieldOnly true that block
is skipped, the caller-supplied dims is reused, and x, y, z are never
assigned, so the return statement of line 202 raises UnboundLocalError. -/
def ensight (mesh : EnsightMesh) (fieldType : String) (fieldRaw : List ℚ)
    (readFieldOnly : Bool) (dimsArg : ℕ) :
    Except PyErr (ℕ × List ℚ × List ℚ × List ℚ × ℕ × List (List ℚ)) :=
  let geomRes : Except PyErr (Option (ℕ × List ℚ × List ℚ × List ℚ)) :=
    if readFieldOnly = false then
      match pyInt mesh.countTok with
      | Except.error e => Except.error e
      | Except.ok c =>
          let dims := c.toNat
          let data := mesh.coords.take (dims * 3)
          Except.ok (some (dims, data.take dims, (data.drop dims).take dims,
                           (data.drop (2 * dims)).take dims))
    else Except.ok none
  match geomRes with
  | Except.error e => Except.error e
  | Except.ok geom =>
    let dims := match geom with
      | some g => g.1
      | none => dimsArg
    match ensightReadField dims fieldType fieldRaw with
    | Except.error e => Except.error e
    | Except.ok field =>
        match geom with
        | some (d, xs, ys, zs) =>
            Except.ok (d, xs, ys, zs, ensightFieldDim fieldType, field)
        | none => Except.error (PyErr.unboundLocalError "x")

/-! ## binario.py, binaryfile (lines 17-67)

The stream is the file's byte list plus a cursor.  self.f.read(n) returns up
to n bytes; struct.unpack(fmt, buffer) raises struct.error unless the buffer
holds exactly calcsize(fmt) bytes; read_int4 therefore fails exactly when
fewer than 4*N bytes remain.  __exit__ (lines 26-36) closes the handle, and
then returns self — a truthy value, which makes the with-statement suppress
the exception it was given. -/

/-- An open binary stream: the file's bytes and the read cursor. -/
structure BinaryFile where
  data : List ℕ
  pos : ℕ
deriving DecidableEq

/-- self.f.read(n): up to n bytes from the cursor, advancing it by the
number of bytes actually returned. -/
def fread (f : BinaryFile) (n : ℕ) : List ℕ × BinaryFile :=
  let chunk := (f.data.drop f.pos).take n
  (chunk, ⟨f.data, f.pos + chunk.length⟩)

/-- A little-endian unsigned integer from a byte list. -/
def leNat : List ℕ → ℕ
  | [] => 0
  | b :: bs => b + 256 * leNat bs

/-- A w-byte two's-complement signed value from its unsigned reading. -/
def toSigned (w : ℕ) (v : ℕ) : ℤ :=
  if v < 2 ^ (8 * w - 1) then (v : ℤ) else (v : ℤ) - 2 ^ (8 * w)

/-- struct.unpack('Ni', buffer): consecutive 4-byte little-endian signed
integers. -/
def int4sOfBytes : List ℕ → List ℤ
  | b0 :: b1 :: b2 :: b3 :: rest => toSigned 4 (leNat [b0, b1, b2, b3]) :: int4sOfBytes rest
  | _ => []

/-- binario.py lines 47-49, read_int4: read N*4 bytes and unpack them as N
4-byte signed integers; struct.unpack raises struct.error when fewer bytes
came back.  (For N = 1 the code returns the single value rather than a
1-tuple; both are modelled as the value list.) -/
def read_int4 (f : BinaryFile) (N : ℕ) : Except PyErr (List ℤ) × BinaryFile :=
  let (chunk, f₁) := fread f (N * 4)
  if chunk.length = N * 4 then (Except.ok (int4sOfBytes chunk), f₁)
  else (Except.error PyErr.structError, f₁)

/-- binario.py line 36: __exit__ ends in `return self`, and an object with
no overridden truth value is truthy. -/
def exitReturnsTruthy : Bool := true

/-- The with-statement around a binaryfile: __init__ opens the handle, the
body runs, __exit__ (lines 26-36) closes the handle on either outcome and
returns self, so a body exception is suppressed rather than propagated
(the commented-out `return False` of line 35 would propagate it).  The
result pairs the outcome seen after the with-block — the body's value, or
nothing when the exception was swallowed — with whether the handle was
closed. -/
def withBinaryfile {α : Type} (data : List ℕ)
    (body : BinaryFile → Except PyErr α × BinaryFile) :
    Except PyErr (Option α) × Bool :=
  let f : BinaryFile := ⟨data, 0⟩
  match body f with
  | (Except.ok a, _) => (Except.ok (some a), true)
  | (Except.error e, _) =>
      (if exitReturnsTruthy then Except.ok none else Except.error e, true)

/-! # Helper lemmas -/

/-- Taking up to the first index satisfying p is taking while p fails: the
shape of the np.argmax truncation in planarAverages when a row reaches the
threshold. -/
theorem take_findIdx_eq_takeWhile {α : Type} (p : α → Bool) (l : List α) :
    l.take (l.findIdx p) = l.takeWhile (fun a => !(p a)) := by
  induction l with
  | nil => rfl
  | cons a l ih =>
      cases hpa : p a with
      | true => simp [List.findIdx_cons, hpa]
      | false => simp [List.findIdx_cons, hpa, ih]

/-- A successful ensightReadField read is the list of per-component runs and
passed both genfromtxt's max_rows check and the broadcast checks. -/
theorem ensightReadField_ok {dims : ℕ} {dt : String} {raw : List ℚ}
    {cols : List (List ℚ)} (h : ensightReadField dims dt raw = Except.ok cols) :
    cols = (List.range (ensightFieldDim dt)).map
        (fun i => ((raw.take (dims * ensightFieldDim dt)).drop (i * dims)).take dims) ∧
    1 ≤ dims * ensightFieldDim dt ∧
    ∀ i ∈ List.range (ensightFieldDim dt),
      (((raw.take (dims * ensightFieldDim dt)).drop (i * dims)).take dims).length = dims := by
  unfold ensightReadField at h
  dsimp only at h
  split at h
  · exact absurd h (by simp)
  · next h1 =>
    split at h
    · next h2 =>
      refine ⟨by injection h with h; exact h.symm, by omega, ?_⟩
      intro i hi
      have := List.all_eq_true.mp h2 i hi
      simpa using this
    · exact absurd h (by simp)

/-- Every row of the concatenated planar-average output comes from the rows
of one of the subdirectories. -/
theorem mem_planarAverages {y : PARow} :
    ∀ {sds : List PASubdir}, y ∈ planarAverages sds → ∃ sd ∈ sds, y ∈ sd.rows := by
  intro sds
  induction sds with
  | nil => intro h; simp [planarAverages] at h
  | cons sd rest ih =>
    cases rest with
    | nil =>
      intro h
      exact ⟨sd, List.mem_cons_self sd [], h⟩
    | cons next rest2 =>
      intro h
      rcases List.mem_append.mp h with h | h
      · exact ⟨sd, List.mem_cons_self _ _, List.take_subset _ _ h⟩
      · obtain ⟨sd', hmem, hr⟩ := ih h
        exact ⟨sd', List.mem_cons_of_mem _ hmem, hr⟩

/-- A row kept by the truncation of a non-last subdirectory lies strictly
before the next subdirectory's nominal start time. -/
theorem mem_take_truncationIndex {a : PARow} {rows : List PARow} {s : ℚ}
    (h : a ∈ rows.take (truncationIndex rows s)) : a.t < s := by
  unfold truncationIndex at h
  split at h
  · rw [take_findIdx_eq_takeWhile] at h
    have := List.mem_takeWhile_imp h
    simpa using this
  · simp at h

/-- Concatenating the truncated blocks keeps the row times strictly
increasing, provided each subdirectory's times are strictly increasing, no
row predates its own subdirectory's nominal start time, and the nominal
start times are in order. -/
theorem planarAverages_pairwise (sds : List PASubdir)
    (h1 : ∀ sd ∈ sds, sd.rows.Pairwise (fun a b => a.t < b.t))
    (h2 : ∀ sd ∈ sds, ∀ r ∈ sd.rows, sd.startTime ≤ r.t)
    (h3 : sds.Pairwise (fun a b => a.startTime ≤ b.startTime)) :
    (planarAverages sds).Pairwise (fun a b => a.t < b.t) := by
  induction sds with
  | nil => simp [planarAverages]
  | cons sd rest ih =>
    cases rest with
    | nil => simpa [planarAverages] using h1 sd (List.mem_cons_self _ _)
    | cons next rest2 =>
      show (sd.rows.take (truncationIndex sd.rows next.startTime)
              ++ planarAverages (next :: rest2)).Pairwise _
      rw [List.pairwise_append]
      refine ⟨?_, ?_, ?_⟩
      · exact List.Pairwise.sublist (List.take_sublist _ _) (h1 sd (List.mem_cons_self _ _))
      · exact ih (fun x hx => h1 x (List.mem_cons_of_mem _ hx))
          (fun x hx => h2 x (List.mem_cons_of_mem _ hx)) (List.Pairwise.of_cons h3)
      · intro a ha b hb
        have ha2 : a.t < next.startTime := mem_take_truncationIndex ha
        obtain ⟨sd', hmem, hr⟩ := mem_planarAverages hb
        have hb2 : sd'.startTime ≤ b.t := h2 sd' (List.mem_cons_of_mem _ hmem) _ hr
        have hns : next.startTime ≤ sd'.startTime := by
          rcases List.mem_cons.mp hmem with rfl | hmem2
          · exact le_refl _
          · exact (List.pairwise_cons.mp (List.Pairwise.of_cons h3)).1 _ hmem2
        exact lt_of_lt_of_le ha2 (le_trans hns hb2)

/-- The byte count of an exact unpack: 4*n bytes decode to n int4 values. -/
theorem int4sOfBytes_length :
    ∀ (n : ℕ) (bs : List ℕ), bs.length = 4 * n → (int4sOfBytes bs).length = n := by
  intro n
  induction n with
  | zero =>
    intro bs hb
    have : bs = [] := List.length_eq_zero.mp hb
    subst this
    rfl
  | succ m ih =>
    intro bs hb
    match bs, hb with
    | b0 :: b1 :: b2 :: b3 :: rest, hb =>
      have hr : rest.length = 4 * m := by
        simp only [List.length_cons] at hb
        omega
      simp [int4sOfBytes, ih rest hr]

/-- np.arctan2(-1, 0) is -pi/2. -/
theorem arctan2_neg_one_zero : arctan2 (-1) 0 = -(Real.pi / 2) := by
  have h : (⟨0, -1⟩ : ℂ) = -Complex.I := by
    apply Complex.ext <;> simp
  rw [arctan2, h, Complex.arg_neg_I]

/-- np.arctan2(0, -1) is pi. -/
theorem arctan2_zero_neg_one : arctan2 0 (-1) = Real.pi := by
  have h : (⟨-1, 0⟩ : ℂ) = -1 := by
    apply Complex.ext <;> simp
  rw [arctan2, h, Complex.arg_neg_one]

/-- np.arctan2(0, 1) is 0. -/
theorem arctan2_zero_one : arctan2 0 1 = 0 := by
  have h : (⟨1, 0⟩ : ℂ) = 1 := by
    apply Complex.ext <;> simp
  rw [arctan2, h, Complex.arg_one]

/-! # Claim theorems -/

/-- C10: for every input, ARL_wind_profiler raises a name-resolution error
(NameError for `range_gates`) before returning any data, because the body
references the names range_gates and header and neither is defined in the
module; the reader never produces its tabular output. -/
theorem ARL_name_error_C10 (blocks : List (List (List ℚ))) :
    ARL_wind_profiler blocks = Except.error (PyErr.nameError "range_gates") ∧
    "range_gates" ∉ remote_sensing_module_names ∧
    "header" ∉ remote_sensing_module_names := by
  refine ⟨?_, by decide, by decide⟩
  rfl

/-- C10 witness: the failure on a concrete input (one empty block). -/
theorem ARL_name_error_C10_witness :
    ARL_wind_profiler [[]] = Except.error (PyErr.nameError "range_gates") :=
  (ARL_name_error_C10 [[]]).1

/-- C8 (code bug): in field-only mode the geometry step is skipped and the
caller-supplied point count is used to decode the field, but the call never
returns successfully: the returned tuple names x, y and z, which the skipped
branch alone assigns, so the return statement raises UnboundLocalError.
Every field-only call errors; on the concrete failing input (a well-formed
2-point scalar field file, dims = 2) the error is UnboundLocalError for x. -/
theorem ensight_readFieldOnly_C8 :
    (∀ (mesh : EnsightMesh) (ft : String) (raw : List ℚ) (n : ℕ),
        ∃ e, ensight mesh ft raw true n = Except.error e) ∧
    ensight ⟨Tok.num 0, []⟩ "scalar" [5, 7] true 2 =
      Except.error (PyErr.unboundLocalError "x") := by
  constructor
  · intro mesh ft raw n
    cases h : ensightReadField n ft raw with
    | ok v =>
      exact ⟨PyErr.unboundLocalError "x", by simp [ensight, h]⟩
    | error e =>
      exact ⟨e, by simp [ensight, h]⟩
  · rfl

/-- C4: a successful ensight field read returns exactly 1 column for the
type tag scalar, 3 for vector and 9 for tensor; each column is the
corresponding contiguous per-component run of dims values of the field
file's data; and the read fails for every other type tag. -/
theorem ensight_field_rank_C4 :
    (∀ dims raw cols, ensightReadField dims "scalar" raw = Except.ok cols →
        cols.length = 1) ∧
    (∀ dims raw cols, ensightReadField dims "vector" raw = Except.ok cols →
        cols.length = 3) ∧
    (∀ dims raw cols, ensightReadField dims "tensor" raw = Except.ok cols →
        cols.length = 9) ∧
    (∀ dims dt raw cols, ensightReadField dims dt raw = Except.ok cols →
        ∀ i, i < cols.length →
          cols[i]? = some (((raw.take (dims * ensightFieldDim dt)).drop (i * dims)).take dims) ∧
          (((raw.take (dims * ensightFieldDim dt)).drop (i * dims)).take dims).length = dims) ∧
    (∀ dims dt raw, dt ≠ "scalar" → dt ≠ "vector" → dt ≠ "tensor" →
        ensightReadField dims dt raw = Except.error PyErr.maxRowsError) := by
  have hlen : ∀ (dims : ℕ) (dt : String) (raw : List ℚ) (cols : List (List ℚ)),
      ensightReadField dims dt raw = Except.ok cols →
      cols.length = ensightFieldDim dt := by
    intro dims dt raw cols h
    rw [(ensightReadField_ok h).1]
    simp
  refine ⟨fun dims raw cols h => hlen dims _ raw cols h,
          fun dims raw cols h => hlen dims _ raw cols h,
          fun dims raw cols h => hlen dims _ raw cols h, ?_, ?_⟩
  · intro dims dt raw cols h i hi
    obtain ⟨hc, -, hall⟩ := ensightReadField_ok h
    have hi2 : i < ensightFieldDim dt := by
      rw [hlen dims dt raw cols h] at hi
      exact hi
    constructor
    · rw [hc]
      simp [List.getElem?_map, List.getElem?_range, hi2]
    · exact hall i (List.mem_range.mpr hi2)
  · intro dims dt raw h1 h2 h3
    unfold ensightReadField ensightFieldDim
    simp [h1, h2, h3]

/-- C4 witness: a concrete vector field file with dims = 2 and six values
decodes to three columns, the three contiguous 2-value runs, and a
concrete unrecognized tag fails. -/
theorem ensight_field_rank_C4_witness :
    (∀ cols, ensightReadField 2 "vector" [10, 11, 20, 21, 30, 31] = Except.ok cols →
        cols.length = 3) ∧
    ensightReadField 2 "complex" [10, 11] = Except.error PyErr.maxRowsError :=
  ⟨fun cols h => ensight_field_rank_C4.2.1 2 [10, 11, 20, 21, 30, 31] cols h,
   ensight_field_rank_C4.2.2.2.2 2 "complex" [10, 11]
     (by decide) (by decide) (by decide)⟩

/-- C3: for point counts of at least one, a structuredVTK coordinate axis
has exactly count entries, a 1-point axis is the single value origin, and
the i-th entry is origin + i*spacing, so a multi-point axis is evenly
spaced from origin over spacing*(count-1). -/
theorem structuredVTK_axes_C3 (origin spacing : ℚ) (count : ℕ) (h : 1 ≤ count) :
    (structuredVTKaxis origin spacing count).length = count ∧
    (count = 1 → structuredVTKaxis origin spacing count = [origin]) ∧
    (∀ i, i < count →
      (structuredVTKaxis origin spacing count)[i]? = some (origin + spacing * i)) := by
  match count, h with
  | 1, _ =>
    refine ⟨rfl, fun _ => rfl, ?_⟩
    intro i hi
    interval_cases i
    simp [structuredVTKaxis]
  | (n + 2), _ =>
    have hgt : 1 < n + 2 := by omega
    have hne : ((n + 2 : ℕ) : ℚ) - 1 ≠ 0 := by
      have : ((n + 2 : ℕ) : ℚ) = (n : ℚ) + 2 := by push_cast; ring
      rw [this]
      have : (0 : ℚ) ≤ (n : ℚ) := Nat.cast_nonneg n
      intro hc
      nlinarith
    refine ⟨?_, fun hc => by omega, ?_⟩
    · rw [structuredVTKaxis, if_pos hgt, linspace, List.length_map, List.length_range]
    · intro i hi
      rw [structuredVTKaxis, if_pos hgt, linspace]
      rw [List.getElem?_map, List.getElem?_range hi]
      have hne2 : (n : ℚ) + 1 ≠ 0 := by positivity
      have hval : origin + (origin + spacing * (((n + 2 : ℕ) : ℚ) - 1) - origin) * (i : ℚ)
          / (((n + 2 : ℕ) : ℚ) - 1) = origin + spacing * (i : ℚ) := by
        have hcast : ((n + 2 : ℕ) : ℚ) - 1 = (n : ℚ) + 1 := by push_cast; ring
        rw [hcast]
        field_simp
        ring
      rw [Option.map_some', hval]

/-- C3 witness: the axis with origin 10, spacing 3 and four points has four
entries and its entry at index 2 is 16. -/
theorem structuredVTK_axes_C3_witness :
    (structuredVTKaxis 10 3 4).length = 4 ∧
    (structuredVTKaxis 10 3 4)[2]? = some 16 :=
  ⟨(structuredVTK_axes_C3 10 3 4 (by norm_num)).1,
   by
     have h := (structuredVTK_axes_C3 10 3 4 (by norm_num)).2.2 2 (by norm_num)
     rw [h]
     norm_num⟩

/-- C6 counterexample: a one-row ESRL table whose speed 2 and direction 3
differ from the sentinel 999999 still comes back changed — the returned
height column is 1000, not the parsed 1, because ESRL_wind_profiler
multiplies HT by the height conversion factor.  The claim's "every other
row and every other column of the returned table are unchanged from the
parsed input" is false. -/
theorem sentinel_rows_C6_counterexample :
    ESRL_wind_profiler 1000 999999 ⟨[1], [2], [3], []⟩ =
      ⟨[1000], [some 2], [some 3], []⟩ ∧
    (1000 : ℚ) ≠ 1 := by
  refine ⟨?_, by norm_num⟩
  simp only [ESRL_wind_profiler, maskColumn, List.map_cons, List.map_nil,
    EsrlTableOut.mk.injEq]
  norm_num

/-- C6 amended: in every instrument reader's returned table, exactly the
rows whose raw value equals the sentinel have the speed or direction entry
set to missing and every other row of those columns keeps its parsed value;
the remaining columns are unchanged — except the ESRL height column, which
is rescaled by the height conversion factor. -/
theorem sentinel_rows_C6_amended (conv bad bs bd : ℚ) (e : EsrlTable)
    (s : ScintecTable) (i : ℕ) :
    (ESRL_wind_profiler conv bad e).ht[i]? = (e.ht[i]?).map (fun h => h * conv) ∧
    (ESRL_wind_profiler conv bad e).spd[i]? =
      (e.spd[i]?).map (fun x => if x = bad then none else some x) ∧
    (ESRL_wind_profiler conv bad e).dir[i]? =
      (e.dir[i]?).map (fun x => if x = bad then none else some x) ∧
    (ESRL_wind_profiler conv bad e).others = e.others ∧
    (scintec_profiler bs bd s).speed[i]? =
      (s.speed[i]?).map (fun x => if x = bs then none else some x) ∧
    (scintec_profiler bs bd s).direction[i]? =
      (s.direction[i]?).map (fun x => if x = bd then none else some x) ∧
    (scintec_profiler bs bd s).others = s.others := by
  refine ⟨?_, ?_, ?_, rfl, ?_, ?_, rfl⟩ <;>
    simp [ESRL_wind_profiler, scintec_profiler, maskColumn, List.getElem?_map]

/-- C2: the planar-average concatenation.  The last subdirectory
contributes all its rows; a non-last subdirectory in which some row
reaches the next subdirectory's nominal start time contributes exactly the
rows strictly before the first such row; and a non-last subdirectory in
which no row reaches that time has truncation index 0 and contributes no
rows. -/
theorem planar_truncation_C2 :
    (∀ sd : PASubdir, planarAverages [sd] = sd.rows) ∧
    (∀ (sd next : PASubdir) (rest : List PASubdir),
        (∃ r ∈ sd.rows, next.startTime ≤ r.t) →
        planarAverages (sd :: next :: rest) =
          sd.rows.takeWhile (fun r => r.t < next.startTime)
            ++ planarAverages (next :: rest)) ∧
    (∀ (sd next : PASubdir) (rest : List PASubdir),
        (∀ r ∈ sd.rows, r.t < next.startTime) →
        truncationIndex sd.rows next.startTime = 0 ∧
        planarAverages (sd :: next :: rest) = planarAverages (next :: rest)) := by
  refine ⟨fun sd => rfl, ?_, ?_⟩
  · intro sd next rest hex
    have hany : (sd.rows.any fun r => next.startTime ≤ r.t) = true := by
      simp only [List.any_eq_true]
      obtain ⟨r, hr, hle⟩ := hex
      exact ⟨r, hr, by simpa using hle⟩
    show sd.rows.take (truncationIndex sd.rows next.startTime) ++ _ = _
    rw [truncationIndex, if_pos hany, take_findIdx_eq_takeWhile]
    congr 1
    congr 1
    funext r
    by_cases h : next.startTime ≤ r.t
    · simp [h, not_lt.mpr h]
    · simp [h, lt_of_not_le h]
  · intro sd next rest hall
    have hany : (sd.rows.any fun r => next.startTime ≤ r.t) = false := by
      simp only [List.any_eq_false]
      intro r hr
      simpa using not_le.mpr (hall r hr)
    have hidx : truncationIndex sd.rows next.startTime = 0 := by
      rw [truncationIndex, if_neg (by simp [hany])]
    refine ⟨hidx, ?_⟩
    show sd.rows.take (truncationIndex sd.rows next.startTime) ++ _ = _
    rw [hidx]
    simp

/-- C2 witness: two subdirectories overlapping at the restart point 2.  The
first contributes only its rows before time 2 — its own time-2 row is cut —
and the last contributes everything. -/
theorem planar_truncation_C2_witness :
    planarAverages
        [⟨0, [⟨0, 1, []⟩, ⟨1, 1, []⟩, ⟨2, 1, []⟩]⟩,
         ⟨2, [⟨2, 1, []⟩, ⟨3, 1, []⟩]⟩] =
      [⟨0, 1, []⟩, ⟨1, 1, []⟩, ⟨2, 1, []⟩, ⟨3, 1, []⟩] := by
  rw [planar_truncation_C2.2.1 ⟨0, [⟨0, 1, []⟩, ⟨1, 1, []⟩, ⟨2, 1, []⟩]⟩
        ⟨2, [⟨2, 1, []⟩, ⟨3, 1, []⟩]⟩ [] ⟨⟨2, 1, []⟩, by decide, by decide⟩]
  decide

/-- C7: when every subdirectory's time column is strictly increasing, no
row predates its subdirectory's nominal start time, and the subdirectory
start times are in order (times overlap only across restart boundaries),
the concatenated planar-average time sequence has no duplicate timestamps
and is monotonically non-decreasing. -/
theorem planar_monotonic_C7 (sds : List PASubdir)
    (h1 : ∀ sd ∈ sds, sd.rows.Pairwise (fun a b => a.t < b.t))
    (h2 : ∀ sd ∈ sds, ∀ r ∈ sd.rows, sd.startTime ≤ r.t)
    (h3 : sds.Pairwise (fun a b => a.startTime ≤ b.startTime)) :
    (planarAveragesTimes sds).Nodup ∧
    (planarAveragesTimes sds).Sorted (fun a b => a ≤ b) := by
  have hp := planarAverages_pairwise sds h1 h2 h3
  constructor
  · show (List.map PARow.t (planarAverages sds)).Pairwise (fun a b => a ≠ b)
    rw [List.pairwise_map]
    exact hp.imp (fun hab => ne_of_lt hab)
  · show (List.map PARow.t (planarAverages sds)).Pairwise (fun a b => a ≤ b)
    rw [List.pairwise_map]
    exact hp.imp (fun hab => le_of_lt hab)

/-- C7 witness: three synthetic subdirectories whose time columns overlap at
the restart boundaries 2 and 4; the concatenated times are duplicate-free
and non-decreasing. -/
theorem planar_monotonic_C7_witness :
    (planarAveragesTimes
        [⟨0, [⟨0, 1, []⟩, ⟨1, 1, []⟩, ⟨2, 1, []⟩]⟩,
         ⟨2, [⟨2, 1, []⟩, ⟨3, 1, []⟩, ⟨4, 1, []⟩]⟩,
         ⟨4, [⟨4, 1, []⟩, ⟨5, 1, []⟩]⟩]).Nodup ∧
    (planarAveragesTimes
        [⟨0, [⟨0, 1, []⟩, ⟨1, 1, []⟩, ⟨2, 1, []⟩]⟩,
         ⟨2, [⟨2, 1, []⟩, ⟨3, 1, []⟩, ⟨4, 1, []⟩]⟩,
         ⟨4, [⟨4, 1, []⟩, ⟨5, 1, []⟩]⟩]).Sorted (fun a b => a ≤ b) :=
  planar_monotonic_C7
    [⟨0, [⟨0, 1, []⟩, ⟨1, 1, []⟩, ⟨2, 1, []⟩]⟩,
     ⟨2, [⟨2, 1, []⟩, ⟨3, 1, []⟩, ⟨4, 1, []⟩]⟩,
     ⟨4, [⟨4, 1, []⟩, ⟨5, 1, []⟩]⟩]
    (by decide) (by decide) (by decide)

/-- C9 counterexample: a structured-grid file whose DIMENSIONS line carries
an unparseable token.  The decode fails with ValueError and the handle flag
is false: structuredVTK only calls f.close() on the fall-through path, so
on this exit path the handle is not released.  This falsifies "every reader
releases its handle on every exit path". -/
theorem file_handles_C9_counterexample :
    structuredVTK
        [[Tok.raw "vtk"], [Tok.raw "sample"], [Tok.raw "ASCII"],
         [Tok.raw "DATASET"], [Tok.raw "DIMENSIONS", Tok.raw "oops"]] =
      (Except.error PyErr.valueError, false) := by
  decide

/-- C9 amended: the with-statement readers (binaryfile and the
remote-sensing readers) release their handle on every exit path, but
structuredVTK closes its handle exactly on normal completion: a successful
parse returns with the handle closed, while any decode failure propagates
with the handle left open. -/
theorem file_handles_C9_amended (file : List (List Tok)) (r : VTKData)
    (h : structuredVTKparse file = Except.ok r) :
    structuredVTK file = (Except.ok r, true) ∧
    (∀ (file₂ : List (List Tok)) (e : PyErr),
        structuredVTKparse file₂ = Except.error e →
        structuredVTK file₂ = (Except.error e, false)) ∧
    (∀ (data : List ℕ) (body : BinaryFile → Except PyErr (List ℤ) × BinaryFile),
        (withBinaryfile data body).2 = true) := by
  refine ⟨by rw [structuredVTK, h], ?_, ?_⟩
  · intro file₂ e he
    rw [structuredVTK, he]
  · intro data body
    rw [withBinaryfile]
    rcases body ⟨data, 0⟩ with ⟨res, f⟩
    cases res <;> rfl

/-- C9 amended witness: a complete well-formed one-point, one-field
structured-grid file parses successfully and the handle flag is true. -/
theorem file_handles_C9_amended_witness :
    structuredVTK
        [[Tok.raw "vtk"], [Tok.raw "sample"], [Tok.raw "ASCII"],
         [Tok.raw "DATASET"],
         [Tok.raw "DIMENSIONS", Tok.num 1, Tok.num 1, Tok.num 1],
         [Tok.raw "ORIGIN", Tok.num 0, Tok.num 0, Tok.num 0],
         [Tok.raw "SPACING", Tok.num 1, Tok.num 1, Tok.num 1],
         [Tok.raw "POINT_DATA"],
         [Tok.raw "FIELD", Tok.num 1],
         [Tok.raw "p", Tok.num 1],
         [Tok.num 7]] =
      (Except.ok ⟨[Tok.raw "sample"], (1, 1, 1), (0, 0, 0), (1, 1, 1),
                  [0], [0], [0], 1, [(Tok.raw "p", 1, [[7]])]⟩, true) :=
  (file_handles_C9_amended
      [[Tok.raw "vtk"], [Tok.raw "sample"], [Tok.raw "ASCII"],
       [Tok.raw "DATASET"],
       [Tok.raw "DIMENSIONS", Tok.num 1, Tok.num 1, Tok.num 1],
       [Tok.raw "ORIGIN", Tok.num 0, Tok.num 0, Tok.num 0],
       [Tok.raw "SPACING", Tok.num 1, Tok.num 1, Tok.num 1],
       [Tok.raw "POINT_DATA"],
       [Tok.raw "FIELD", Tok.num 1],
       [Tok.raw "p", Tok.num 1],
       [Tok.num 7]]
      ⟨[Tok.raw "sample"], (1, 1, 1), (0, 0, 0), (1, 1, 1),
       [0], [0], [0], 1, [(Tok.raw "p", 1, [[7]])]⟩
      (by decide)).1

/-- C5 counterexample: inside a binaryfile with-scope, a 4-byte integer
read over a 2-byte file fails with struct.error, but the with-scope's
outcome is Except.ok none — the exception was suppressed by __exit__
returning self (a truthy value) — so the failure does NOT propagate to the
caller past the reader's scope.  The handle is still released. -/
theorem binaryfile_scope_C5_counterexample :
    (read_int4 ⟨[1, 2], 0⟩ 1).1 = Except.error PyErr.structError ∧
    withBinaryfile [1, 2] (fun f => read_int4 f 1) = (Except.ok none, true) := by
  exact ⟨rfl, rfl⟩

/-- C5 amended: a typed read of N values fails with struct.error exactly
when fewer than N values' worth of bytes remain (and succeeds, advancing
the cursor by N*4 bytes, otherwise); the handle is released on scope exit
whether the body succeeded or raised; but a body failure is caught at the
scope exit and suppressed (printed) rather than propagated to the caller. -/
theorem binaryfile_scope_C5_amended (data : List ℕ) (pos N : ℕ)
    (hshort : data.length - pos < N * 4) :
    (read_int4 ⟨data, pos⟩ N).1 = Except.error PyErr.structError ∧
    (∀ (data₂ : List ℕ) (body : BinaryFile → Except PyErr (List ℤ) × BinaryFile),
        (withBinaryfile data₂ body).2 = true) ∧
    (∀ (data₂ : List ℕ) (body : BinaryFile → Except PyErr (List ℤ) × BinaryFile)
        (e : PyErr) (f₁ : BinaryFile),
        body ⟨data₂, 0⟩ = (Except.error e, f₁) →
        (withBinaryfile data₂ body).1 = Except.ok none) ∧
    (∀ (data₂ : List ℕ) (pos₂ N₂ : ℕ), N₂ * 4 ≤ data₂.length - pos₂ →
        ∃ vals, read_int4 ⟨data₂, pos₂⟩ N₂ = (Except.ok vals, ⟨data₂, pos₂ + N₂ * 4⟩) ∧
          vals.length = N₂) := by
  refine ⟨?_, ?_, ?_, ?_⟩
  · rw [read_int4, fread]
    dsimp only
    rw [if_neg (by simp only [List.length_take, List.length_drop]; omega)]
  · intro data₂ body
    rw [withBinaryfile]
    rcases body ⟨data₂, 0⟩ with ⟨res, f⟩
    cases res <;> rfl
  · intro data₂ body e f₁ hb
    rw [withBinaryfile, hb]
    rfl
  · intro data₂ pos₂ N₂ hle
    have hlen : ((data₂.drop pos₂).take (N₂ * 4)).length = N₂ * 4 := by
      simp only [List.length_take, List.length_drop]
      omega
    refine ⟨int4sOfBytes ((data₂.drop pos₂).take (N₂ * 4)), ?_, ?_⟩
    · rw [read_int4, fread]
      dsimp only
      rw [if_pos hlen, hlen]
    · exact int4sOfBytes_length N₂ _ (by rw [hlen]; ring)

/-- C5 amended witness: a 3-byte file cannot satisfy one 4-byte integer
read. -/
theorem binaryfile_scope_C5_amended_witness :
    (read_int4 ⟨[1, 2, 3], 0⟩ 1).1 = Except.error PyErr.structError :=
  (binaryfile_scope_C5_amended [1, 2, 3] 0 1 (by norm_num)).1

/-- C1 counterexample: with u=0, v=-1 the computed direction is 360, not
the claimed 0 — and 360 lies outside the claimed range [0, 360); with
u=-1, v=0 it is 90, not the claimed 180.  The single subtraction fires only
for raw values strictly greater than 360, so the boundary raw value 360 is
returned unchanged. -/
theorem windcube_direction_C1_counterexample :
    windcube_v1_direction 0 (-1) = 360 ∧
    (360 : ℝ) ∉ Set.Ico (0 : ℝ) 360 ∧
    windcube_v1_direction (-1) 0 = 90 ∧
    (90 : ℝ) ≠ 180 := by
  have hπ : Real.pi ≠ 0 := Real.pi_ne_zero
  have h1 : windcube_v1_rawDirection 0 (-1) = 360 := by
    rw [windcube_v1_rawDirection, arctan2_neg_one_zero]
    field_simp
    ring
  have h2 : windcube_v1_rawDirection (-1) 0 = 90 := by
    rw [windcube_v1_rawDirection, arctan2_zero_neg_one]
    field_simp
    ring
  refine ⟨?_, ?_, ?_, by norm_num⟩
  · rw [windcube_v1_direction, h1, windcube_v1_wrap, if_neg (by norm_num)]
  · simp only [Set.mem_Ico]
    norm_num
  · rw [windcube_v1_direction, h2, windcube_v1_wrap, if_neg (by norm_num)]

/-- C1 amended: the computed direction is the raw value 270 - atan2(v,u)
in degrees with 360 subtracted exactly once when the raw value strictly
exceeds 360, and the result lies in [0, 360] (the boundary value 360 is
attainable); in particular u=0, v=-1 yields 360, u=-1, v=0 yields 90,
u=1, v=0 yields 270, a raw value of exactly 361 maps to 1, and 720 maps
to 360, not 0. -/
theorem windcube_direction_C1_amended :
    (∀ um vm : ℝ, 0 ≤ windcube_v1_direction um vm ∧
        windcube_v1_direction um vm ≤ 360) ∧
    windcube_v1_direction 0 (-1) = 360 ∧
    windcube_v1_direction (-1) 0 = 90 ∧
    windcube_v1_direction 1 0 = 270 ∧
    windcube_v1_wrap 361 = 1 ∧
    windcube_v1_wrap 720 = 360 ∧
    (360 : ℝ) ≠ 0 ∧
    (∀ d : ℝ, 360 < d → windcube_v1_wrap d = d - 360) ∧
    (∀ d : ℝ, d ≤ 360 → windcube_v1_wrap d = d) := by
  have hπ : Real.pi ≠ 0 := Real.pi_ne_zero
  have hπ0 : (0 : ℝ) < Real.pi := Real.pi_pos
  have hc : (0 : ℝ) < 180 / Real.pi := by positivity
  refine ⟨?_, ?_, ?_, ?_, ?_, ?_, by norm_num, ?_, ?_⟩
  · intro um vm
    have h1 : arctan2 vm um ≤ Real.pi := Complex.arg_le_pi _
    have h2 : -Real.pi < arctan2 vm um := Complex.neg_pi_lt_arg _
    have hu : 180 / Real.pi * arctan2 vm um ≤ 180 := by
      calc 180 / Real.pi * arctan2 vm um
          ≤ 180 / Real.pi * Real.pi := mul_le_mul_of_nonneg_left h1 hc.le
        _ = 180 := by field_simp
    have hl : -180 < 180 / Real.pi * arctan2 vm um := by
      have h3 := mul_lt_mul_of_pos_left h2 hc
      have h4 : 180 / Real.pi * -Real.pi = -180 := by field_simp
      linarith
    have hraw1 : 90 ≤ windcube_v1_rawDirection um vm := by
      rw [windcube_v1_rawDirection]
      linarith
    have hraw2 : windcube_v1_rawDirection um vm < 450 := by
      rw [windcube_v1_rawDirection]
      linarith
    rw [windcube_v1_direction, windcube_v1_wrap]
    by_cases hgt : windcube_v1_rawDirection um vm > 360.0
    · rw [if_pos hgt]
      constructor <;> linarith
    · rw [if_neg hgt]
      constructor <;> linarith
  · have h1 : windcube_v1_rawDirection 0 (-1) = 360 := by
      rw [windcube_v1_rawDirection, arctan2_neg_one_zero]
      field_simp
      ring
    rw [windcube_v1_direction, h1, windcube_v1_wrap, if_neg (by norm_num)]
  · have h2 : windcube_v1_rawDirection (-1) 0 = 90 := by
      rw [windcube_v1_rawDirection, arctan2_zero_neg_one]
      field_simp
      ring
    rw [windcube_v1_direction, h2, windcube_v1_wrap, if_neg (by norm_num)]
  · have h3 : windcube_v1_rawDirection 1 0 = 270 := by
      rw [windcube_v1_rawDirection, arctan2_zero_one]
      ring
    rw [windcube_v1_direction, h3, windcube_v1_wrap, if_neg (by norm_num)]
  · rw [windcube_v1_wrap, if_pos (by norm_num)]
    norm_num
  · rw [windcube_v1_wrap, if_pos (by norm_num)]
    norm_num
  · intro d hd
    have h360 : (360.0 : ℝ) = 360 := by norm_num
    rw [windcube_v1_wrap, h360, if_pos hd]
  · intro d hd
    have h360 : (360.0 : ℝ) = 360 := by norm_num
    rw [windcube_v1_wrap, h360, if_neg (not_lt.mpr hd)]
